import Mathlib

/-!
Verification development for the Room Inspector pipeline
(src/streamlit_app.py). The Python source is shallowly embedded:
pure helpers become Lean functions, the UI/disk/network effects of the
analysis button handler and of the publish function become explicit
event traces, and fallible external calls become `Except`/`Option`
values supplied as parameters.
-/

/-- Raw verdict parsed from the OpenAI oracle reply. Mirrors the JSON
object requested by the system prompt: the fields `same_room`,
`is_clean`, `is_too_narrow_photo` may be absent (`none`), matching the
Python `data.get(key, default)` accesses. -/
structure VerdictData where
  same_room : Option Bool
  is_clean : Option Bool
  is_too_narrow_photo : Option Bool
  suggestions : List String
deriving DecidableEq, Repr

/-- The four mutually exclusive inspection outcomes. -/
inductive Outcome where
  | DIFFERENT_ROOM
  | TOO_NARROW
  | DIRTY
  | CLEAN
deriving DecidableEq, Repr

/-- The outcome classification if/elif chain of the analysis button
handler (streamlit_app.py lines 270-293), translated condition by
condition:
`if not data.get("same_room", False): ...`
`elif not data.get("is_too_narrow_photo", True): ...`
`else: if data.get("is_clean", False): ... else: ...`. -/
def classify (data : VerdictData) : Outcome :=
  if !(data.same_room.getD false) then Outcome.DIFFERENT_ROOM
  else if !(data.is_too_narrow_photo.getD true) then Outcome.TOO_NARROW
  else if data.is_clean.getD false then Outcome.CLEAN
  else Outcome.DIRTY

/-- The file-name suffix appended in each branch of the same if/elif
chain: `"_diff_room"`, `"_to_narrow_pic"`, `"_clean"`, and (with no
separating underscore in the source) `"not_clean"`. -/
def photoTag (data : VerdictData) : String :=
  if !(data.same_room.getD false) then ("_diff_room")
  else if !(data.is_too_narrow_photo.getD true) then ("_to_narrow_pic")
  else if data.is_clean.getD false then ("_clean")
  else ("not_clean")

/-- `file_name = timestamp; file_name += <tag>; file_name += ".jpg"`. -/
def photoName (ts : String) (data : VerdictData) : String :=
  ts ++ photoTag data ++ (".jpg")

/-- A verdict claiming the same room, clean, with the narrow flag
present and true — the input of the C1 claim. -/
def narrowCleanVerdict : VerdictData :=
  { same_room := some true, is_clean := some true,
    is_too_narrow_photo := some true, suggestions := [] }

/-- A verdict claiming the same room, not clean, with the narrow flag
present and true (the code's inverted test skips the narrow branch, so
this lands in the not-clean branch). -/
def dirtyVerdict : VerdictData :=
  { same_room := some true, is_clean := some false,
    is_too_narrow_photo := some true, suggestions := [] }

/-- A verdict claiming a different room, with the other fields
absent. -/
def diffRoomVerdict : VerdictData :=
  { same_room := some false, is_clean := none,
    is_too_narrow_photo := none, suggestions := [] }

/-- Code point of the standard base64 alphabet character for a sextet
`s < 64` (the alphabet used by Python's `base64.b64encode`):
A-Z for 0-25, a-z for 26-51, 0-9 for 52-61, then + and /. -/
def sextetToCode (s : Nat) : Nat :=
  if s < 26 then 65 + s
  else if s < 52 then 71 + s
  else if s < 62 then s - 4
  else if s = 62 then 43
  else 47

/-- Inverse table lookup: sextet value of a base64 alphabet code point. -/
def codeToSextet (c : Nat) : Nat :=
  if 65 ≤ c ∧ c ≤ 90 then c - 65
  else if 97 ≤ c ∧ c ≤ 122 then c - 71
  else if 48 ≤ c ∧ c ≤ 57 then c + 4
  else if c = 43 then 62
  else 63

/-- Standard base64 encoding of a byte list as a list of character
codes, three bytes to four characters, padded with `=` (code 61),
as `base64.b64encode` produces. -/
def b64encodeCodes : List Nat → List Nat
  | [] => []
  | [a] => [sextetToCode (a / 4), sextetToCode (a % 4 * 16), 61, 61]
  | [a, b] => [sextetToCode (a / 4), sextetToCode (a % 4 * 16 + b / 16),
               sextetToCode (b % 16 * 4), 61]
  | a :: b :: c :: rest =>
      sextetToCode (a / 4) :: sextetToCode (a % 4 * 16 + b / 16) ::
      sextetToCode (b % 16 * 4 + c / 64) :: sextetToCode (c % 64) ::
      b64encodeCodes rest

/-- Standard base64 decoding of a list of character codes back to
bytes, honouring `=` padding. -/
def b64decodeCodes : List Nat → List Nat
  | c1 :: c2 :: c3 :: c4 :: rest =>
      if c3 = 61 then
        [codeToSextet c1 * 4 + codeToSextet c2 / 16]
      else if c4 = 61 then
        [codeToSextet c1 * 4 + codeToSextet c2 / 16,
         codeToSextet c2 % 16 * 16 + codeToSextet c3 / 4]
      else
        (codeToSextet c1 * 4 + codeToSextet c2 / 16) ::
        (codeToSextet c2 % 16 * 16 + codeToSextet c3 / 4) ::
        (codeToSextet c3 % 4 * 64 + codeToSextet c4) ::
        b64decodeCodes rest
  | _ => []

/-- Render a list of character codes as a string. -/
def codesToString (l : List Nat) : String :=
  String.mk (l.map Char.ofNat)

/-- `file_to_b64` (streamlit_app.py lines 81-82):
`f"data:{mime};base64,{base64.b64encode(data).decode()}"`, with the
byte payload modelled as a list of naturals below 256. -/
def file_to_b64 (data : List Nat) (mime : String) : String :=
  ("data:") ++ mime ++ (";base64,") ++ codesToString (b64encodeCodes data)

/-- Observable effects of the analysis button handler, in program
order: streamlit messages, the raw-reply dump, `st.stop()`, the
`last_clean.txt` write, the photo write, and the call to
`push_last_clean_to_github`. -/
inductive Event where
  | errMsg (s : String)
  | warnMsg (s : String)
  | successMsg (s : String)
  | showRaw (s : String)
  | showTip (s : String)
  | writeMarker (ts : String)
  | writePhoto (name : String)
  | pushCall (files : List String)
  | stop
deriving DecidableEq, Repr

/-- Fence handling of the oracle reply (lines 255-257):
`content = resp.choices[0].message.content.strip()`, then if it starts
with a json code fence, `removeprefix("```json").removesuffix("```")`. -/
def stripFence (raw : String) : String :=
  let content := raw.trim
  if content.startsWith ("```json") then
    let c := content.drop 7
    if c.endsWith ("```") then c.dropRight 3 else c
  else content

/-- Message shown by `st.error` on a JSONDecodeError (line 260; the
source text is Hebrew). -/
def badJsonMsg : String := "could not parse the OpenAI reply (invalid JSON)"

/-- Message of `st.error` in the different-room branch (line 272). -/
def diffRoomMsg : String := "these do not look like the same room"

/-- Message of `st.error` in the narrow-photo branch (line 275). -/
def narrowMsg : String := "the photo is too narrow"

/-- Message of `st.success` in the clean branch (line 281). -/
def cleanMsg : String := "the room looks tidy and clean"

/-- Message of `st.warning` when writing last_clean.txt fails
(line 288). -/
def markerFailMsg : String := "could not update last_clean.txt"

/-- Message of `st.warning` in the not-clean branch (line 290). -/
def dirtyMsg : String := "the room is not tidy, suggestions:"

/-- Whether the `clean` flag ends up True: set only inside the clean
branch (line 285), after `Path("last_clean.txt").write_text(timestamp)`
succeeded. `markerOk` models whether that write raises. -/
def cleanFlag (data : VerdictData) (markerOk : Bool) : Bool :=
  data.same_room.getD false && data.is_too_narrow_photo.getD true &&
    data.is_clean.getD false && markerOk

/-- `files_to_push = [file_name]`, plus `"last_clean.txt"` when the
clean flag was set (lines 299-301). -/
def filesToPush (ts : String) (data : VerdictData) (markerOk : Bool) :
    List String :=
  if cleanFlag data markerOk then [photoName ts data, ("last_clean.txt")]
  else [photoName ts data]

/-- Events of the classification if/elif chain (lines 270-293), branch
by branch: error/success/warning messages, the marker write in the
clean branch (with its try/except fallback warning), and the suggestion
tips in the not-clean branch. -/
def branchEvents (data : VerdictData) (ts : String) (markerOk : Bool) :
    List Event :=
  if !(data.same_room.getD false) then [Event.errMsg diffRoomMsg]
  else if !(data.is_too_narrow_photo.getD true) then [Event.errMsg narrowMsg]
  else if data.is_clean.getD false then
    (if markerOk then [Event.successMsg cleanMsg, Event.writeMarker ts]
     else [Event.successMsg cleanMsg, Event.warnMsg markerFailMsg])
  else Event.warnMsg dirtyMsg :: data.suggestions.map Event.showTip

/-- The analysis button handler after the oracle reply arrives
(lines 255-302), as its trace of observable effects. `parseJSON`
models `json.loads` (none = JSONDecodeError); on a parse failure the
handler shows an error, dumps the raw content and calls `st.stop()`,
so nothing after it runs. Otherwise it classifies, writes the photo
under `photoName`, and calls `push_last_clean_to_github` on
`filesToPush`. -/
def runAnalysis (parseJSON : String → Option VerdictData)
    (raw ts : String) (markerOk : Bool) : List Event :=
  let content := stripFence raw
  match parseJSON content with
  | none => [Event.errMsg badJsonMsg, Event.showRaw content, Event.stop]
  | some data =>
      branchEvents data ts markerOk ++
        [Event.writePhoto (photoName ts data),
         Event.pushCall (filesToPush ts data markerOk)]

/-- Observable git-side effects of `push_last_clean_to_github`, in
program order: streamlit warnings/infos, `repo.index.add`,
`repo.index.commit`, `origin.set_url`, `origin.push`. -/
inductive GitEvent where
  | warn (s : String)
  | info (s : String)
  | add (files : List String)
  | commit (msg : String)
  | setUrl (u : String)
  | pushAttempt (refspec : String)
deriving DecidableEq, Repr

/-- Warning when GitPython is not importable (line 90; the source text
also carries an emoji). -/
def gitMissingMsg : String := "GitPython not installed - cannot push to GitHub."

/-- Warning when the working directory is not a git repository
(line 95). -/
def notRepoMsg : String := "Current directory is not a git repository - skipping push."

/-- `st.info` after a successful push (line 116; Hebrew in the
source). -/
def pushedMsg : String := "the attempt was uploaded to GitHub"

/-- `st.warning` when the push raises (line 118; Hebrew in the
source). -/
def pushFailedMsg : String := "error while pushing to GitHub"

/-- The credentialed remote URL built at lines 105-111:
`protocol, rest = old_url.split("://", 1)`; append `.git` after
stripping trailing slashes when the suffix is missing; drop everything
up to the first `@`; then
`f"https://{github_token}:x-oauth-basic@{rest}"`. -/
def rewriteUrl (token old_url : String) : String :=
  let rest0 := String.intercalate ("://") ((old_url.splitOn ("://")).drop 1)
  let rest1 :=
    if rest0.endsWith (".git") then rest0
    else (rest0.dropRightWhile (fun ch => ch = '/')) ++ (".git")
  let rest2 :=
    if rest1.contains '@' then
      String.intercalate ("@") ((rest1.splitOn ("@")).drop 1)
    else rest1
  ("https://") ++ token ++ (":x-oauth-basic@") ++ rest2

/-- `push_last_clean_to_github` (lines 85-122), as the pair of its
git-effect trace and the remote URL left configured on disk.
`token` is `github_token` (`github_enabled = bool(github_token)`),
`gitInstalled` whether the GitPython import succeeded, `isRepo` whether
`git.Repo(".")` succeeds, `url` the configured remote URL on entry,
`pushOk` whether `origin.push` returns without raising (any exception
is caught by the `except` clause, and the `finally` clause restores
the URL on both paths). -/
def push_last_clean_to_github (token branch : String)
    (gitInstalled isRepo : Bool) (url : String) (pushOk : Bool)
    (files : List String) : List GitEvent × String :=
  if token = ("") then ([], url)
  else if gitInstalled = false then ([GitEvent.warn gitMissingMsg], url)
  else if isRepo = false then ([GitEvent.warn notRepoMsg], url)
  else
    let old_url := url
    let rewritten := decide (¬ token = ("")) && old_url.startsWith ("https://")
    let rewriteEvents :=
      if rewritten then [GitEvent.setUrl (rewriteUrl token old_url)] else []
    let urlAfterRewrite :=
      if rewritten then rewriteUrl token old_url else old_url
    let pushEvents :=
      GitEvent.pushAttempt (("HEAD:") ++ branch) ::
        (if pushOk then [GitEvent.info pushedMsg]
         else [GitEvent.warn pushFailedMsg])
    let restore := decide (¬ token = ("")) && decide (¬ old_url = (""))
    let restoreEvents := if restore then [GitEvent.setUrl old_url] else []
    let finalUrl := if restore then old_url else urlAfterRewrite
    ([GitEvent.add files, GitEvent.commit ("Update")] ++ rewriteEvents ++
       pushEvents ++ restoreEvents,
     finalUrl)

/-- Fields of the JSON object that the Gemini prompt requests. -/
structure GeminiData where
  is_the_same_room : Option Bool
  is_clean : Option Bool
  is_picture_wide_enough : Option Bool
  differences : Option String
  suggestions_hebrew : Option String
deriving DecidableEq, Repr

/-- The dictionary returned by `compare_rooms_in_with_gemini`: either
a parsed verdict, or an error entry (with the raw response text on the
JSONDecodeError path). -/
structure GeminiResult where
  error : Option String
  raw_response : Option String
  parsed : Option GeminiData
deriving DecidableEq, Repr

/-- Outcomes of the external calls made inside
`compare_rooms_in_with_gemini`, each either a value or a raised
exception rendered as a message, in source order: `genai.configure`,
`base64.b64decode`/`PIL.Image.open` on the reference image, the same
on the new image, `model.generate_content(...).text`, and `json.loads`
(none = JSONDecodeError). -/
structure GeminiEnv where
  configure : Except String Unit
  decodeRef : Except String Unit
  openRef : Except String Unit
  decodeNew : Except String Unit
  openNew : Except String Unit
  generate : Except String String
  parse : String → Option GeminiData

/-- Cleanup applied to the Gemini reply (line 176):
`response.text.strip().replace("```json", "").replace("```", "")`. -/
def geminiCleanup (text : String) : String :=
  ((text.trim).replace ("```json") ("")).replace ("```") ("")

/-- The NameError raised at line 148, where
`new_img = PIL.Image.open(new_image_data)` reads the name
`new_image_data`, which is defined nowhere in the function or the
module. -/
def nameErrorMsg : String := "name new_image_data is not defined"

/-- The error entry of the JSONDecodeError branch (line 183). -/
def geminiJsonErrMsg : String := "Failed to decode JSON from the API response."

/-- `compare_rooms_in_with_gemini` (lines 124-185). The try block runs
the external calls in source order; when execution reaches line 148 it
raises a NameError unconditionally (see `nameErrorMsg`).
`except json.JSONDecodeError` returns the error dictionary carrying
the raw response; the blanket `except Exception as e` returns the
error dictionary alone. -/
def compare_rooms_in_with_gemini (env : GeminiEnv) : GeminiResult :=
  let run : Except String GeminiResult := do
    env.configure
    env.decodeRef
    env.openRef
    env.decodeNew
    env.openNew
    let _ ← (Except.error nameErrorMsg : Except String Unit)
    let text ← env.generate
    let cleaned := geminiCleanup text
    match env.parse cleaned with
    | some d => pure { error := none, raw_response := none, parsed := some d }
    | none => pure { error := some geminiJsonErrMsg,
                     raw_response := some text, parsed := none }
  match run with
  | Except.ok r => r
  | Except.error e =>
      { error := some (("An unexpected error occurred: ") ++ e),
        raw_response := none, parsed := none }

theorem codeToSextet_sextetToCode {s : Nat} (hs : s < 64) :
    codeToSextet (sextetToCode s) = s := by
  revert hs
  revert s
  decide

theorem sextetToCode_ne_pad {s : Nat} (hs : s < 64) :
    sextetToCode s ≠ 61 := by
  revert hs
  revert s
  decide

theorem b64_roundtrip (data : List Nat) (hd : ∀ b ∈ data, b < 256) :
    b64decodeCodes (b64encodeCodes data) = data := by
  induction data using b64encodeCodes.induct with
  | case1 => rfl
  | case2 a =>
      have ha : a < 256 := hd a (by simp)
      have h1 : a / 4 < 64 := by omega
      have h2 : a % 4 * 16 < 64 := by omega
      simp [b64encodeCodes, b64decodeCodes,
        codeToSextet_sextetToCode h1, codeToSextet_sextetToCode h2]
      omega
  | case3 a b =>
      have ha : a < 256 := hd a (by simp)
      have hb : b < 256 := hd b (by simp)
      have h1 : a / 4 < 64 := by omega
      have h2 : a % 4 * 16 + b / 16 < 64 := by omega
      have h3 : b % 16 * 4 < 64 := by omega
      simp [b64encodeCodes, b64decodeCodes, sextetToCode_ne_pad h3,
        codeToSextet_sextetToCode h1, codeToSextet_sextetToCode h2,
        codeToSextet_sextetToCode h3]
      omega
  | case4 a b c rest ih =>
      have ha : a < 256 := hd a (by simp)
      have hb : b < 256 := hd b (by simp)
      have hc : c < 256 := hd c (by simp)
      have hrest : ∀ x ∈ rest, x < 256 := by
        intro x hx
        exact hd x (by simp [hx])
      have h1 : a / 4 < 64 := by omega
      have h2 : a % 4 * 16 + b / 16 < 64 := by omega
      have h3 : b % 16 * 4 + c / 64 < 64 := by omega
      have h4 : c % 64 < 64 := by omega
      simp [b64encodeCodes, b64decodeCodes, sextetToCode_ne_pad h3,
        sextetToCode_ne_pad h4, ih hrest,
        codeToSextet_sextetToCode h1, codeToSextet_sextetToCode h2,
        codeToSextet_sextetToCode h3, codeToSextet_sextetToCode h4]
      omega

/-- C9: file_to_b64 is deterministic and pure (a function of its two
arguments, whose data-URI shape is the literal concatenation below),
and decoding the base64 payload of the produced data-URI reproduces
the original input bytes exactly, for every byte sequence. -/
theorem file_to_b64_roundtrip (data : List Nat) (mime : String)
    (hd : ∀ b ∈ data, b < 256) :
    file_to_b64 data mime =
      ("data:") ++ mime ++ (";base64,") ++
        codesToString (b64encodeCodes data) ∧
    b64decodeCodes (b64encodeCodes data) = data := by
  exact ⟨rfl, b64_roundtrip data hd⟩

/-- Witness for C9 at the byte list [104, 105] and MIME type
image/jpeg. -/
theorem file_to_b64_roundtrip_witness :
    (∀ b ∈ [104, 105], b < 256) ∧
    (file_to_b64 [104, 105] ("image/jpeg") =
      ("data:") ++ ("image/jpeg") ++ (";base64,") ++
        codesToString (b64encodeCodes [104, 105]) ∧
    b64decodeCodes (b64encodeCodes [104, 105]) = [104, 105]) := by
  exact ⟨by decide, file_to_b64_roundtrip [104, 105] ("image/jpeg") (by decide)⟩

/-- C5: when the oracle reply (after fence handling) is not parseable,
the handler shows an error, displays the raw reply text, and stops the
script before any file is written: the trace holds no photo write, no
marker write and no publish call. -/
theorem analysis_invalid_json_aborts
    (parseJSON : String → Option VerdictData) (raw ts : String)
    (markerOk : Bool) (hp : parseJSON (stripFence raw) = none) :
    runAnalysis parseJSON raw ts markerOk =
      [Event.errMsg badJsonMsg, Event.showRaw (stripFence raw),
       Event.stop] ∧
    (∀ n, Event.writePhoto n ∉ runAnalysis parseJSON raw ts markerOk) ∧
    (∀ t, Event.writeMarker t ∉ runAnalysis parseJSON raw ts markerOk) ∧
    (∀ fs, Event.pushCall fs ∉ runAnalysis parseJSON raw ts markerOk) := by
  simp [runAnalysis, hp]

/-- Witness for C5: a parse function that rejects everything, on the
raw reply "here is a prose apology". -/
theorem analysis_invalid_json_aborts_witness :
    ((fun _ : String => (none : Option VerdictData))
        (stripFence ("here is a prose apology")) = none) ∧
    (runAnalysis (fun _ => none) ("here is a prose apology") ("T") true =
      [Event.errMsg badJsonMsg,
       Event.showRaw (stripFence ("here is a prose apology")), Event.stop] ∧
    (∀ n, Event.writePhoto n ∉
      runAnalysis (fun _ => none) ("here is a prose apology") ("T") true) ∧
    (∀ t, Event.writeMarker t ∉
      runAnalysis (fun _ => none) ("here is a prose apology") ("T") true) ∧
    (∀ fs, Event.pushCall fs ∉
      runAnalysis (fun _ => none) ("here is a prose apology") ("T") true)) :=
  ⟨rfl, analysis_invalid_json_aborts (fun _ => none)
    ("here is a prose apology") ("T") true rfl⟩

/-- C1: claimed: a verdict with sameRoom=true, isTooNarrow=true,
isClean=true classifies as TOO_NARROW. The code instead classifies it
as CLEAN: line 274 tests `not data.get("is_too_narrow_photo", True)`,
inverting the flag's polarity relative to the prompt's own definition
("If the picture is too narrow, you must return is_too_narrow_photo as
true"), so a true flag falls through to the clean check. This theorem
records the code's behaviour at the failing input. -/
theorem classify_true_narrow_flag_is_clean :
    classify { same_room := some true, is_clean := some true,
               is_too_narrow_photo := some true, suggestions := [] } =
      Outcome.CLEAN := by
  rfl

/-- C3: for every verdict with sameRoom=false, the classifier returns
DIFFERENT_ROOM regardless of the values of isClean, isTooNarrow and
suggestions. -/
theorem classify_diff_room_precedence
    (c n : Option Bool) (s : List String) :
    classify { same_room := some false, is_clean := c,
               is_too_narrow_photo := n, suggestions := s } =
      Outcome.DIFFERENT_ROOM := by
  rfl

/-- C8: a verdict with same_room=true and no is_too_narrow_photo field
is classified solely by is_clean (CLEAN or DIRTY), never as TOO_NARROW:
the missing flag defaults to True at line 274, whose negation skips the
narrow branch. -/
theorem classify_missing_narrow_field
    (c : Option Bool) (s : List String) :
    classify { same_room := some true, is_clean := c,
               is_too_narrow_photo := none, suggestions := s } =
      (if c.getD false then Outcome.CLEAN else Outcome.DIRTY) := by
  cases c with
  | none => rfl
  | some b => cases b <;> rfl

/-- C2: whenever `push_last_clean_to_github` reaches the remote-URL
rewrite (the token is configured, GitPython is importable and the
working directory is a repository), the remote URL configured on disk
when the call returns equals its value on entry, whether the push
succeeded or raised an exception. -/
theorem push_restores_remote_url (token branch : String) (url : String)
    (pushOk : Bool) (files : List String) (ht : token ≠ ("")) :
    (push_last_clean_to_github token branch true true url pushOk files).2 =
      url := by
  unfold push_last_clean_to_github
  rw [if_neg ht]
  simp only [Bool.false_eq_true, if_false, if_neg]
  by_cases hu : url = ("")
  · subst hu
    have hsw : (("") : String).startsWith ("https://") = false := by decide
    simp [ht, hsw]
  · simp [ht, hu]

/-- Witness for C2 with token "tok", a https remote URL, and a failing
push. -/
theorem push_restores_remote_url_witness :
    (("tok") ≠ ("")) ∧
    (push_last_clean_to_github ("tok") ("main") true true
        ("https://github.com/u/r.git") false [("a.jpg")]).2 =
      ("https://github.com/u/r.git") :=
  ⟨by decide, push_restores_remote_url ("tok") ("main")
    ("https://github.com/u/r.git") false [("a.jpg")] (by decide)⟩

/-- C7 counterexample: with no sync credential configured the function
returns immediately with an empty effect trace — in particular no
warning is reported, contradicting the claim that a warning is shown
in both no-op cases. -/
theorem push_no_token_silent :
    push_last_clean_to_github ("") ("main") true true
        ("https://github.com/u/r.git") true [("a.jpg")] =
      ([], ("https://github.com/u/r.git")) := by
  rfl

/-- C7 amended: with no sync credential configured, publish returns
immediately without staging, committing, rewriting the URL, pushing or
warning; with a credential configured but GitPython missing or the
working directory not a repository, publish is a no-op whose only
effect is a warning; in every such case the configured remote URL is
unchanged. -/
theorem push_noop_guards (token branch : String)
    (gitInstalled isRepo : Bool) (url : String) (pushOk : Bool)
    (files : List String) :
    (token = ("") →
      push_last_clean_to_github token branch gitInstalled isRepo url
          pushOk files = ([], url)) ∧
    (token ≠ ("") → gitInstalled = false →
      push_last_clean_to_github token branch gitInstalled isRepo url
          pushOk files = ([GitEvent.warn gitMissingMsg], url)) ∧
    (token ≠ ("") → gitInstalled = true → isRepo = false →
      push_last_clean_to_github token branch gitInstalled isRepo url
          pushOk files = ([GitEvent.warn notRepoMsg], url)) := by
  refine ⟨?_, ?_, ?_⟩
  · intro ht
    subst ht
    rfl
  · intro ht hg
    subst hg
    unfold push_last_clean_to_github
    rw [if_neg ht]
    rfl
  · intro ht hg hr
    subst hg
    subst hr
    unfold push_last_clean_to_github
    rw [if_neg ht]
    rfl

/-- Witness for C7 amended, applied at a blank token, at a configured
token with GitPython missing, and at a configured token outside a
repository. -/
theorem push_noop_guards_witness :
    (push_last_clean_to_github ("") ("main") true true ("u") true [] =
      ([], ("u"))) ∧
    (push_last_clean_to_github ("tok") ("main") false true ("u") true [] =
      ([GitEvent.warn gitMissingMsg], ("u"))) ∧
    (push_last_clean_to_github ("tok") ("main") true false ("u") true [] =
      ([GitEvent.warn notRepoMsg], ("u"))) :=
  ⟨(push_noop_guards ("") ("main") true true ("u") true []).1 rfl,
   (push_noop_guards ("tok") ("main") false true ("u") true []).2.1
     (by decide) rfl,
   (push_noop_guards ("tok") ("main") true false ("u") true []).2.2
     (by decide) rfl rfl⟩

/-- C6: after a successful parse (and a marker write that does not
raise), the handler's trace ends with the photo write followed by the
publish call, and the part before them holds a CleanMarker write with
the current timestamp exactly when the outcome is CLEAN — so the
marker write happens before the sync attempt, and on every other
outcome the marker file is untouched. -/
theorem analysis_marker_exactly_on_clean
    (parseJSON : String → Option VerdictData) (raw ts : String)
    (data : VerdictData) (hp : parseJSON (stripFence raw) = some data) :
    ∃ pre, runAnalysis parseJSON raw ts true =
        pre ++ [Event.writePhoto (photoName ts data),
                Event.pushCall (filesToPush ts data true)] ∧
      ((Event.writeMarker ts ∈ pre) ↔ classify data = Outcome.CLEAN) ∧
      (∀ t, Event.writeMarker t ∈ pre → t = ts) := by
  refine ⟨branchEvents data ts true, ?_, ?_, ?_⟩
  · simp [runAnalysis, hp]
  · unfold branchEvents classify
    cases h1 : data.same_room.getD false <;>
      cases h2 : data.is_too_narrow_photo.getD true <;>
        cases h3 : data.is_clean.getD false <;> simp
  · intro t
    unfold branchEvents
    cases h1 : data.same_room.getD false <;>
      cases h2 : data.is_too_narrow_photo.getD true <;>
        cases h3 : data.is_clean.getD false <;> simp

/-- Witness for C6 on a parse function returning the verdict
same_room=true, is_clean=true, is_too_narrow_photo=true — which the
code classifies CLEAN. -/
theorem analysis_marker_exactly_on_clean_witness :
    ((fun _ : String => some narrowCleanVerdict)
        (stripFence ("x")) = some narrowCleanVerdict) ∧
    (∃ pre, runAnalysis (fun _ => some narrowCleanVerdict)
        ("x") ("T") true =
        pre ++ [Event.writePhoto (photoName ("T") narrowCleanVerdict),
                Event.pushCall (filesToPush ("T") narrowCleanVerdict true)] ∧
      ((Event.writeMarker ("T") ∈ pre) ↔
        classify narrowCleanVerdict = Outcome.CLEAN) ∧
      (∀ t, Event.writeMarker t ∈ pre → t = ("T"))) :=
  ⟨rfl, analysis_marker_exactly_on_clean (fun _ => some narrowCleanVerdict)
    ("x") ("T") narrowCleanVerdict rfl⟩

/-- C4 counterexample: a dirty verdict (same_room=true, is_clean=false,
narrow flag present and true, so the code's inverted test skips the
narrow branch) with timestamp "T" produces the file name
"Tnot_clean.jpg" — the "not_clean" tag is appended with no separating
underscore, so the name matches none of the claimed
timestamp_tag.jpg forms for the four claimed tags. -/
theorem analysis_photo_name_counterexample :
    photoName ("T") dirtyVerdict = ("Tnot_clean.jpg") ∧
    ("Tnot_clean.jpg") ∉ [("T_diff_room.jpg"), ("T_narrow_pic.jpg"),
      ("T_not_clean.jpg"), ("T_clean.jpg")] := by
  constructor
  · rfl
  · decide

/-- C4 amended: for every completed inspection the photo is written,
for every outcome, under the name timestamp ++ tag ++ ".jpg" where the
tag is one of "_diff_room", "_to_narrow_pic", "_clean" or "not_clean"
(the narrow tag is "to_narrow_pic", not "narrow_pic", and the dirty
tag "not_clean" carries no separating underscore). -/
theorem analysis_photo_always_written
    (parseJSON : String → Option VerdictData) (raw ts : String)
    (markerOk : Bool) (data : VerdictData)
    (hp : parseJSON (stripFence raw) = some data) :
    Event.writePhoto (photoName ts data) ∈
        runAnalysis parseJSON raw ts markerOk ∧
    ∃ tag, tag ∈ [("_diff_room"), ("_to_narrow_pic"), ("_clean"),
        ("not_clean")] ∧ photoName ts data = ts ++ tag ++ (".jpg") := by
  constructor
  · simp [runAnalysis, hp]
  · refine ⟨photoTag data, ?_, rfl⟩
    unfold photoTag
    cases h1 : data.same_room.getD false <;>
      cases h2 : data.is_too_narrow_photo.getD true <;>
        cases h3 : data.is_clean.getD false <;> simp

/-- Witness for C4 amended on a different-room verdict. -/
theorem analysis_photo_always_written_witness :
    ((fun _ : String => some diffRoomVerdict)
        (stripFence ("x")) = some diffRoomVerdict) ∧
    (Event.writePhoto (photoName ("T") diffRoomVerdict) ∈
      runAnalysis (fun _ => some diffRoomVerdict) ("x") ("T") true ∧
    ∃ tag, tag ∈ [("_diff_room"), ("_to_narrow_pic"), ("_clean"),
        ("not_clean")] ∧
      photoName ("T") diffRoomVerdict = ("T") ++ tag ++ (".jpg")) :=
  ⟨rfl, analysis_photo_always_written (fun _ => some diffRoomVerdict)
    ("x") ("T") true diffRoomVerdict rfl⟩

/-- C10: for every behaviour of the external calls,
compare_rooms_in_with_gemini returns a dictionary containing an
"error" key and never a parsed verdict: its success path is
unreachable, because line 148 reads the undefined name new_image_data
before the model is called, raising a NameError that the blanket
except clause turns into the error dictionary. -/
theorem gemini_always_error (env : GeminiEnv) :
    (compare_rooms_in_with_gemini env).error.isSome = true ∧
    (compare_rooms_in_with_gemini env).parsed = none := by
  rcases env with ⟨c, d1, o1, d2, o2, g, p⟩
  rcases c with e | u <;> rcases d1 with e1 | u1 <;>
    rcases o1 with e2 | u2 <;> rcases d2 with e3 | u3 <;>
      rcases o2 with e4 | u4 <;>
        simp [compare_rooms_in_with_gemini, Bind.bind, Except.bind]
